import Mathlib

/-!
Verification development for the `my-chatbot-scraper-backend` repository
(`config.py`, `content_utils.py`, `scraper_service.py`, `main.py`).

The code is shallowly embedded: pure Python fragments become Lean
functions, the stateful BFS spider becomes explicit state passing, and
external collaborators (the HTTP transport, the HTML parser, `urllib`,
the `re` module, the DuckDuckGo search client) are abstracted as
function-valued parameters, as the specification treats them as external
collaborators specified only at their interfaces.
-/

namespace Scraper

/-! ## Python string primitives

Python `str` values are modelled as Lean `String`s (a list of
characters).  `str.startswith` is prefix testing on the character list,
`str.lower` is character-wise lowering (an ASCII-faithful model of
Python's `str.lower`, adequate for the ASCII key/URL material this
program manipulates), `in` is contiguous-sublist containment, and
`s[-4:]` keeps the last four characters. -/

/-- Python `p in s` on character lists: `needle` occurs contiguously in `hay`. -/
def listContains (needle : List Char) : List Char → Bool
  | [] => needle.isEmpty
  | c :: rest => needle.isPrefixOf (c :: rest) || listContains needle rest

/-- Python `s.startswith(p)`. -/
def pyStartsWith (s p : String) : Bool :=
  p.data.isPrefixOf s.data

/-- Python `needle in hay` (substring containment). -/
def pyContains (hay needle : String) : Bool :=
  listContains needle.data hay.data

/-- Python `s.lower()` (character-wise, ASCII model). -/
def pyLower (s : String) : String :=
  ⟨s.data.map Char.toLower⟩

/-- Python `s.strip()`. -/
def pyStrip (s : String) : String :=
  s.trim

/-- Python `s[-4:]`: the last four characters (the whole string if shorter). -/
def pyLast4 (s : String) : String :=
  ⟨s.data.drop (s.data.length - 4)⟩

/-! ## `config.py` -/

/-- `config.py`: the seven configured ScraperAPI keys (the hard-coded
defaults; the environment-variable override of `os.getenv` is not part
of the embedded state). -/
def SCRAPER_API_KEYS_CONFIG : List String :=
  ["e1b46d8eff3b21afeadf257677bae4dd",
   "378152f7116a6232d4634bf7d12eec2a",
   "06037a3f065fcd4f868f29c170d0837c2150a7",
   "c6c1d589f3dc88619ddc7ef198",
   "38e69420dd78bb074f278d554e07eb7f",
   "2d16fc2834936dc5a07bccb3d6a09cb0",
   "7a6b83fba134eb2a0f6231da49c6db7f"]

/-- `config.py` line 22: the list-comprehension filter
`key and not key.lower().startswith("your_") and len(key) > 20`. -/
def isValidKey (key : String) : Bool :=
  !(key == "") && !(pyStartsWith (pyLower key) "your_") && decide (20 < key.length)

/-- `config.py` lines 20-23: `VALID_SCRAPER_API_KEYS`. -/
def VALID_SCRAPER_API_KEYS : List String :=
  SCRAPER_API_KEYS_CONFIG.filter isValidKey

/-- `config.py` line 32. -/
def MAX_CONCURRENT_SCRAPES : Nat := 5

/-- `config.py` line 35. -/
def MIN_CONTENT_LENGTH_FOR_SUMMARY : Nat := 250

/-- `config.py` line 38. -/
def DEFAULT_MAX_DEPTH_INTERNAL_SPIDER : Nat := 1

/-- `config.py` line 41. -/
def DEFAULT_MAX_LINKS_PER_PAGE_SPIDER : Nat := 3

/-! ## `scraper_service.py`: `fetch_url_with_scraperapi`

One call of the fetch client performs at most one HTTP request per
attempt; the network's behaviour on the attempt with retry counter `rc`
is abstracted as `net rc : HttpOutcome`.  A received response carries a
status code and body; the three `except` arms of the source are the
remaining constructors (`httpx.TimeoutException`, `httpx.RequestError`,
and the catch-all `except Exception`, which also receives the
`HTTPStatusError` raised by `response.raise_for_status()`).

One transport fact matters to the embedding: httpx's `Response.text` is
a `str` property (the success path at line 98 reads it as one), so the
`await response.text()` calls on the 401/403/retry-exhaustion branches
(lines 78, 83, 94) call a string and raise
`TypeError: 'str' object is not callable` inside the `try`; those
branches therefore actually return through the catch-all arm at lines
112-115, with status 0, no body, and the TypeError text — not the
branch-specific message they construct (and only print). -/

/-- Outcome of one HTTP request to the ScraperAPI endpoint. -/
inductive HttpOutcome where
  | status (code : Nat) (body : String)
  | timeout (msg : String)
  | netError (msg : String)
  | otherError (msg : String)
deriving DecidableEq

/-- The dictionary returned by `fetch_url_with_scraperapi`
(`raw_response_text`, `status_code`, `error_message`, `final_url`,
`key_used`, `is_critical_error`). -/
structure FetchResult where
  raw_response_text : Option String
  status_code : Nat
  error_message : Option String
  final_url : String
  key_used : String
  is_critical_error : Bool
deriving DecidableEq

/-- What one pass through the body of `fetch_url_with_scraperapi` does
after the HTTP request resolves: either return a result dictionary, or
sleep `sleepSec` seconds and recurse with retry counter `nextRetryCount`. -/
inductive FetchAction where
  | done (r : FetchResult)
  | retry (sleepSec : Nat) (nextRetryCount : Nat)
deriving DecidableEq

/-- `scraper_service.py` lines 41-44: the placeholder-key guard
`if not api_key or api_key.startswith("YOUR_SCRAPERAPI_KEY_")`. -/
def isPlaceholderKey (key : String) : Bool :=
  (key == "") || pyStartsWith key "YOUR_SCRAPERAPI_KEY_"

/-- Line 42: the placeholder-rejection error message. -/
def placeholderMsg (target_url : String) : String :=
  "Invalid/Placeholder ScraperAPI key used for " ++ target_url ++ "."

/-- Line 44: the placeholder-rejection result (returned with no HTTP call). -/
def placeholderResult (target_url api_key : String) : FetchResult :=
  { raw_response_text := none, status_code := 0,
    error_message := some (placeholderMsg target_url),
    final_url := target_url, key_used := api_key, is_critical_error := true }

/-- Line 76: the 401 error message — constructed and printed, but never
returned: the `await response.text()` on line 78 raises `TypeError`
first (see the section comment). -/
def msg401 (target_url api_key : String) : String :=
  "ScraperAPI key ..." ++ pyLast4 api_key ++ " FAILED (401 Unauthorized) for "
    ++ target_url ++ "."

/-- Line 81: the 403 error message — constructed and printed, but never
returned (the `TypeError` on line 83 pre-empts the return). -/
def msg403 (target_url api_key : String) : String :=
  "ScraperAPI request FORBIDDEN (403) for " ++ target_url ++ " with key ..."
    ++ pyLast4 api_key ++ "."

/-- Line 92: the retry-budget-exhausted error message — constructed and
printed, but never returned (the `TypeError` on line 94 pre-empts the
return). -/
def msgMaxRetries (target_url api_key : String) (max_retries status : Nat) : String :=
  "Max retries (" ++ toString max_retries ++ ") reached for " ++ target_url
    ++ " with key ..." ++ pyLast4 api_key ++ ". Last status: " ++ toString status ++ "."

/-- Line 101: the timeout error message. -/
def msgTimeout (target_url api_key exc : String) : String :=
  "Timeout fetching " ++ target_url ++ " via ScraperAPI (key ..."
    ++ pyLast4 api_key ++ "): " ++ exc

/-- Line 105: the network/request-error message. -/
def msgNetError (target_url api_key exc : String) : String :=
  "Network/RequestError for " ++ target_url ++ " via ScraperAPI (key ..."
    ++ pyLast4 api_key ++ "): " ++ exc

/-- Line 113: the catch-all unexpected-error message. -/
def msgUnexpected (target_url api_key exc : String) : String :=
  "Unexpected error fetching " ++ target_url ++ " via ScraperAPI (key ..."
    ++ pyLast4 api_key ++ "): " ++ exc

/-- `str(e)` for the `TypeError` raised by calling httpx's string-valued
`Response.text` property (`await response.text()` at lines 78, 83, 94). -/
def strNotCallableMsg : String := "\x27str\x27 object is not callable"

/-- The dictionary the fetch client actually returns from the 401, 403
and retry-exhaustion branches: the `TypeError` from `await
response.text()` lands in the catch-all `except Exception` arm (lines
112-115). -/
def typeErrorResult (target_url api_key : String) : FetchResult :=
  { raw_response_text := none, status_code := 0
    error_message := some (msgUnexpected target_url api_key strNotCallableMsg)
    final_url := target_url, key_used := api_key, is_critical_error := true }

/-- Line 85: the retryable status set `[429, 500, 502, 503, 504]`. -/
def retryableStatuses : List Nat := [429, 500, 502, 503, 504]

/-- `scraper_service.py` lines 63-115: one attempt of
`fetch_url_with_scraperapi` after the placeholder guard, as a function
of the HTTP outcome of that attempt.  Branches in source order:
status 401 (the return at line 78 raises `TypeError` — see the section
comment — so the attempt returns the catch-all `typeErrorResult`,
critical), status 403 (likewise, line 83), retryable status (sleep
`(retry_count+1)*3` and recurse, else — once the budget is spent — the
return at line 94 likewise yields `typeErrorResult`, critical),
`raise_for_status` for any other non-2xx status (its `HTTPStatusError`
lands in the catch-all `except Exception` arm), success (line 98 reads
the `response.text` property, which is fine); then the `except` arms:
timeout (returned immediately, critical exactly when
`retry_count >= max_retries`), request error (sleep `(retry_count+1)*2`
and recurse while `retry_count < max_retries`, else critical), and the
catch-all (critical). -/
def fetchBody (outcome : HttpOutcome) (target_url api_key : String)
    (retry_count max_retries : Nat) : FetchAction :=
  match outcome with
  | .status code body =>
    if code = 401 then
      .done (typeErrorResult target_url api_key)
    else if code = 403 then
      .done (typeErrorResult target_url api_key)
    else if code ∈ retryableStatuses then
      if retry_count < max_retries then
        .retry ((retry_count + 1) * 3) (retry_count + 1)
      else
        .done (typeErrorResult target_url api_key)
    else if ¬ (200 ≤ code ∧ code < 300) then
      .done { raw_response_text := none, status_code := 0,
              error_message := some (msgUnexpected target_url api_key
                ("HTTPStatusError for status " ++ toString code)),
              final_url := target_url, key_used := api_key, is_critical_error := true }
    else
      .done { raw_response_text := some body, status_code := code,
              error_message := none, final_url := target_url,
              key_used := api_key, is_critical_error := false }
  | .timeout exc =>
    .done { raw_response_text := none, status_code := 0,
            error_message := some (msgTimeout target_url api_key exc),
            final_url := target_url, key_used := api_key,
            is_critical_error := decide (max_retries ≤ retry_count) }
  | .netError exc =>
    if retry_count < max_retries then
      .retry ((retry_count + 1) * 2) (retry_count + 1)
    else
      .done { raw_response_text := none, status_code := 0,
              error_message := some (msgNetError target_url api_key exc),
              final_url := target_url, key_used := api_key, is_critical_error := true }
  | .otherError exc =>
    .done { raw_response_text := none, status_code := 0,
            error_message := some (msgUnexpected target_url api_key exc),
            final_url := target_url, key_used := api_key, is_critical_error := true }

/-- The observable run of one `fetch_url_with_scraperapi` call: the
returned dictionary, the backoff sleeps performed (in order), and the
number of HTTP requests issued. -/
structure FetchTrace where
  result : FetchResult
  sleeps : List Nat
  netCalls : Nat
deriving DecidableEq

/-- `scraper_service.py` lines 28-115: `fetch_url_with_scraperapi`.
The placeholder guard returns with no HTTP call; otherwise the attempt
runs and, on a retry action, the call recurses with the incremented
retry counter after the backoff sleep (the source recursion at lines 90
and 110). -/
def fetch_url_with_scraperapi (net : Nat → HttpOutcome) (target_url api_key : String)
    (retry_count max_retries : Nat) : FetchTrace :=
  if isPlaceholderKey api_key then
    { result := placeholderResult target_url api_key, sleeps := [], netCalls := 0 }
  else
    match hb : fetchBody (net retry_count) target_url api_key retry_count max_retries with
    | .done r => { result := r, sleeps := [], netCalls := 1 }
    | .retry slp rc' =>
      have hlt : retry_count < max_retries ∧ rc' = retry_count + 1 := by
        cases hnet : net retry_count <;>
          simp only [fetchBody, hnet] at hb <;>
          first
            | (split_ifs at hb <;> simp_all)
            | simp_all
      let t := fetch_url_with_scraperapi net target_url api_key rc' max_retries
      { result := t.result, sleeps := slp :: t.sleeps, netCalls := t.netCalls + 1 }
termination_by max_retries + 1 - retry_count
decreasing_by omega

/-! ## `content_utils.py`: `extract_relevant_internal_links`

The HTML parser (`BeautifulSoup`), `urllib.parse.urljoin`/`urlparse`
and the two `re.search` patterns (the date-like-path pattern on line 66
and the static-asset-extension pattern on line 70) are external
collaborators, abstracted behind `HtmlEnv`.  The `try/except ValueError`
around `urljoin`/`urlparse` is not modelled (the abstract parsers are
total). -/

/-- An `<a href=...>` tag as produced by `soup.find_all('a', href=True)`:
its `href` attribute and its visible text (`a_tag.get_text(separator=' ')`). -/
structure Anchor where
  href : String
  text : String
deriving DecidableEq

/-- The fields of `urllib.parse.urlparse` used by the source. -/
structure ParsedUrl where
  scheme : String
  netloc : String
  path : String
  query : String
deriving DecidableEq

/-- The external HTML/URL/regex collaborators of `content_utils.py`. -/
structure HtmlEnv where
  findAnchors : String → List Anchor
  urljoin : String → String → String
  urlparse : String → ParsedUrl
  dateLikePath : String → Bool
  assetPath : String → Bool

/-- `content_utils.py` line 65: the news/article heuristic substrings. -/
def newsPatterns : List String :=
  ["/news", "/article", "story", "details", "breaking", "latest"]

/-- `content_utils.py` lines 53-67: the relevance check for one anchor.
`is_relevant` is the any-term match over anchor text and path+query
(`True` when there are no query terms); when query terms are present and
the match failed, the news-pattern / date-pattern fallback may still
mark the link relevant. -/
def linkIsRelevant (env : HtmlEnv) (query_terms : List String) (a : Anchor)
    (parsed : ParsedUrl) : Bool :=
  let link_text := pyStrip (pyLower a.text)
  let url_path_query := pyLower (parsed.path ++ parsed.query)
  let is_relevant :=
    if query_terms.isEmpty then true
    else query_terms.any fun term =>
      pyContains link_text term || pyContains url_path_query term
  if !query_terms.isEmpty && !is_relevant then
    newsPatterns.any (fun pat => pyContains url_path_query pat)
      || env.dateLikePath url_path_query
  else
    is_relevant

/-- `content_utils.py` lines 38-74: the `for a_tag in soup.find_all(...)`
loop.  `links` models the Python `set` as an insertion-ordered
duplicate-free list; `set.add` is insert-if-absent.  The budget break at
line 39 sits at the head of each iteration. -/
def extractLinksLoop (env : HtmlEnv) (base_url_str base_netloc : String)
    (query_terms : List String) (max_links_to_return : Nat) :
    List Anchor → List String → List String
  | [], links => links
  | a :: rest, links =>
    if max_links_to_return ≤ links.length then links
    else if a.href = "" || pyStartsWith a.href "#" || pyStartsWith a.href "javascript:"
        || pyStartsWith a.href "mailto:" then
      extractLinksLoop env base_url_str base_netloc query_terms max_links_to_return rest links
    else
      let absolute_url := env.urljoin base_url_str a.href
      let parsed := env.urlparse absolute_url
      if ¬ ((parsed.scheme = "http" ∨ parsed.scheme = "https") ∧ parsed.netloc = base_netloc) then
        extractLinksLoop env base_url_str base_netloc query_terms max_links_to_return rest links
      else if linkIsRelevant env query_terms a parsed && !env.assetPath parsed.path then
        extractLinksLoop env base_url_str base_netloc query_terms max_links_to_return rest
          (if absolute_url ∈ links then links else links ++ [absolute_url])
      else
        extractLinksLoop env base_url_str base_netloc query_terms max_links_to_return rest links

/-- `content_utils.py` lines 26-79: `extract_relevant_internal_links`. -/
def extract_relevant_internal_links (env : HtmlEnv) (html_content base_url_str : String)
    (query_terms : List String) (max_links_to_return : Nat) : List String :=
  if html_content = "" then []
  else
    extractLinksLoop env base_url_str (env.urlparse base_url_str).netloc
      query_terms max_links_to_return (env.findAnchors html_content) []

/-! ## `scraper_service.py`: `process_single_site_for_spider_crawl`

The BFS spider over one site.  The fetch transport and the
readability-based content extraction are abstracted in `SpiderEnv`; the
spider state carries the source's local variables plus an event trace
(`fetches`, `enqueues`, `extractCalls`, `dequeues`) recording what the
loop did, so that the traversal invariants are statable.

Two translation notes.  First, the Python gate
`len(visited) + len(queue) < max_links_to_crawl_per_site * 1.5` is the
integer comparison `2*(|visited|+|queue|) < 3*budget` (exact for the
machine-integer ranges involved).  Second, the source line 179 names
`DEFAULT_MAX_LINKS_PER_PAGE_SPIDER`, which `config.py` defines for this
purpose but which the import list of `scraper_service.py` (lines 8-14)
does not bring into scope; the embedding uses the config value, i.e. the
evident intent of that line. -/

/-- The external collaborators of the spider: the fetch transport
(keyed fetch of one URL, `output_format="html"`, as one
`fetch_url_with_scraperapi` call) and `get_main_content_from_html`. -/
structure SpiderEnv where
  fetchOf : String → String → FetchResult
  extractContent : String → String → String
  html : HtmlEnv

/-- The spider's loop state: `visited_on_this_site` (insertion-ordered,
duplicate-free by construction), the `(url, depth)` frontier `queue`,
`site_content_parts`, `site_errors`, `processed_page_count` (`count`),
plus the event trace. -/
structure SpiderSt where
  visited : List String
  queue : List (String × Nat)
  contentParts : List String
  errors : List String
  count : Nat
  dequeues : Nat
  fetches : List (String × Nat)
  enqueues : List (String × Nat)
  extractCalls : List (String × Nat)
deriving DecidableEq

/-- Initial spider state: frontier `[(base_url, 0)]` (recorded as the
first enqueue), everything else empty. -/
def initSt (base_url : String) : SpiderSt :=
  { visited := [], queue := [(base_url, 0)], contentParts := [], errors := [],
    count := 0, dequeues := 0, fetches := [], enqueues := [(base_url, 0)],
    extractCalls := [] }

/-- A dequeue that skips the entry (already visited, or too deep). -/
def popSkip (s : SpiderSt) (rest : List (String × Nat)) : SpiderSt :=
  { s with queue := rest, dequeues := s.dequeues + 1 }

/-- Lines 141-153: dequeue, mark visited, bump the page counter, fetch
(the fetch is recorded in the trace). -/
def beginProcess (s : SpiderSt) (url : String) (d : Nat)
    (rest : List (String × Nat)) : SpiderSt :=
  { s with queue := rest, dequeues := s.dequeues + 1,
           visited := s.visited ++ [url], count := s.count + 1,
           fetches := s.fetches ++ [(url, d)] }

/-- Append one error string (`site_errors.append`). -/
def recordError (s : SpiderSt) (e : String) : SpiderSt :=
  { s with errors := s.errors ++ [e] }

/-- Append one content block (`site_content_parts.append`). -/
def recordPart (s : SpiderSt) (p : String) : SpiderSt :=
  { s with contentParts := s.contentParts ++ [p] }

/-- Record one Link Relevance Filter invocation in the trace. -/
def recordExtract (s : SpiderSt) (url : String) (budget : Nat) : SpiderSt :=
  { s with extractCalls := s.extractCalls ++ [(url, budget)] }

/-- Line 156: the error string recorded for a failed fetch. -/
def fetchErrorString (url : String) (fr : FetchResult) (msg : String) : String :=
  "Fetch error for " ++ url ++ " (Key ..." ++ pyLast4 fr.key_used ++ ", Status "
    ++ toString fr.status_code ++ "): " ++ msg

/-- Line 164: the error string recorded when no HTML came back. -/
def noHtmlString (url : String) (fr : FetchResult) : String :=
  "No HTML content received for " ++ url ++ " (Key ..." ++ pyLast4 fr.key_used ++ ")"

/-- Line 172: a labeled content block. -/
def contentBlock (url md : String) : String :=
  "### Content from: " ++ url ++ "\n" ++ md

/-- Line 175: the low/no-content diagnostic block. -/
def lowContentBlock (url : String) (n : Nat) : String :=
  "### Low/No substantial content from: " ++ url ++ " (Readability output length: "
    ++ toString n ++ ")"

/-- Lines 169-175: run content extraction and append the appropriate
block.  `len(extracted_markdown) > MIN_CONTENT_LENGTH_FOR_SUMMARY / 2`
(true division by 2) is the integer comparison `2*len > MIN`. -/
def contentStep (env : SpiderEnv) (s : SpiderSt) (raw url : String) : SpiderSt :=
  let md := env.extractContent raw url
  if md ≠ "" ∧ 2 * md.length > MIN_CONTENT_LENGTH_FOR_SUMMARY then
    recordPart s (contentBlock url md)
  else
    recordPart s (lowContentBlock url md.length)

/-- Lines 180-183: the per-link enqueue step.  The soft frontier cap
(`< budget * 1.5`) guards the duplicate checks; a link passing both is
appended to the frontier at the given depth and recorded in the trace. -/
def enqueueLink (maxPages d1 : Nat) (s : SpiderSt) (link : String) : SpiderSt :=
  if 2 * (s.visited.length + s.queue.length) < 3 * maxPages then
    if link ∉ s.visited ∧ (∀ q ∈ s.queue, q.1 ≠ link) then
      { s with queue := s.queue ++ [(link, d1)],
               enqueues := s.enqueues ++ [(link, d1)] }
    else s
  else s

/-- Lines 180-183: the `for link in internal_links` loop. -/
def enqueueLinks (maxPages d1 : Nat) (s : SpiderSt) : List String → SpiderSt
  | [] => s
  | l :: ls => enqueueLinks maxPages d1 (enqueueLink maxPages d1 s l) ls

/-- `scraper_service.py` lines 140-183: the spider's `while` loop.
Branches in source order: loop guards (`queue` non-empty,
`processed_page_count < max_links_to_crawl_per_site`), the
visited skip, the depth skip, fetch, the fetch-error branch (record the
error; `break` on a critical error, `continue` otherwise), the
missing-HTML branch, content extraction, and — when
`current_d < max_depth` — link extraction and the enqueue loop. -/
def spiderLoop (env : SpiderEnv) (api_key : String) (query_terms : List String)
    (max_depth max_pages : Nat) (s : SpiderSt) : SpiderSt :=
  match hq : s.queue with
  | [] => s
  | (url, d) :: rest =>
    if hc : s.count < max_pages then
      if url ∈ s.visited then
        spiderLoop env api_key query_terms max_depth max_pages (popSkip s rest)
      else if max_depth < d then
        spiderLoop env api_key query_terms max_depth max_pages (popSkip s rest)
      else
        let fr := env.fetchOf api_key url
        let s1 := beginProcess s url d rest
        match fr.error_message with
        | some msg =>
          let s2 := recordError s1 (fetchErrorString url fr msg)
          if fr.is_critical_error then s2
          else spiderLoop env api_key query_terms max_depth max_pages s2
        | none =>
          match fr.raw_response_text with
          | none =>
            spiderLoop env api_key query_terms max_depth max_pages
              (recordError s1 (noHtmlString url fr))
          | some raw =>
            if raw = "" then
              spiderLoop env api_key query_terms max_depth max_pages
                (recordError s1 (noHtmlString url fr))
            else
              let s2 := contentStep env s1 raw url
              if d < max_depth then
                spiderLoop env api_key query_terms max_depth max_pages
                  (enqueueLinks max_pages (d + 1)
                    (recordExtract s2 url DEFAULT_MAX_LINKS_PER_PAGE_SPIDER)
                    (extract_relevant_internal_links env.html raw url query_terms
                      DEFAULT_MAX_LINKS_PER_PAGE_SPIDER))
              else
                spiderLoop env api_key query_terms max_depth max_pages s2
    else s
termination_by (max_pages - s.count, s.queue.length)
decreasing_by
  all_goals first
    | (apply Prod.Lex.right
       simp [popSkip, hq])
    | (apply Prod.Lex.left
       simp only [recordError, beginProcess]
       omega)
    | (apply Prod.Lex.left
       have hcnt : ∀ (ls : List String) (st : SpiderSt) (mp d1 : Nat),
           (enqueueLinks mp d1 st ls).count = st.count := by
         intro ls
         induction ls with
         | nil => intro st mp d1; rfl
         | cons l t ih =>
           intro st mp d1
           simp only [enqueueLinks, ih]
           unfold enqueueLink
           split_ifs <;> rfl
       simp only [hcnt, recordExtract, contentStep, recordError]
       split_ifs <;> simp only [recordPart, beginProcess] <;> omega)

/-- `query_terms` computed at line 136:
`[t.strip() for t in original_query.lower().split() if t.strip()]`
when the query is non-empty. -/
def queryTermsOf (original_query : String) : List String :=
  if original_query = "" then []
  else ((pyLower original_query).split Char.isWhitespace).filter (· ≠ "")

/-- `scraper_service.py` lines 118-184: the whole spider run for one
base URL, returning the final loop state. -/
def process_single_site_for_spider_crawl (env : SpiderEnv)
    (base_url api_key original_query : String)
    (max_depth max_links_to_crawl_per_site : Nat) : SpiderSt :=
  spiderLoop env api_key (queryTermsOf original_query) max_depth
    max_links_to_crawl_per_site (initSt base_url)

/-- Lines 185-191: the dictionary returned by the spider. -/
structure SiteCrawlResult where
  source_base_url : String
  aggregated_content : String
  errors : List String
  key_used_for_base : String
deriving DecidableEq

/-- Lines 185-191: build the spider's result from its final state. -/
def siteCrawlResultOf (base_url api_key : String) (s : SpiderSt) : SiteCrawlResult :=
  { source_base_url := base_url,
    aggregated_content :=
      if s.contentParts = [] then
        "No content gathered from " ++ base_url ++ " or its subpages."
      else
        String.intercalate "\n\n---\n\n" s.contentParts,
    errors := s.errors,
    key_used_for_base := api_key }

/-- The frontier/trace invariant of one spider run (claim C3): the
visited list and the queued URLs are jointly duplicate-free, queued
depths never exceed `max_depth`, every dequeue processed a page
(`dequeues = count`), one fetch per processed page, the page budget is
respected, fetched depths never exceed `max_depth`, no URL is enqueued
twice, and every enqueued URL is still accounted for in `visited` or
the queue. -/
def Inv (max_depth max_pages : Nat) (s : SpiderSt) : Prop :=
  (s.visited ++ s.queue.map Prod.fst).Nodup ∧
  (∀ p ∈ s.queue, p.2 ≤ max_depth) ∧
  s.dequeues = s.count ∧
  s.fetches.length = s.count ∧
  s.count ≤ max_pages ∧
  (∀ p ∈ s.fetches, p.2 ≤ max_depth) ∧
  (s.enqueues.map Prod.fst).Nodup ∧
  (∀ u ∈ s.enqueues.map Prod.fst, u ∈ s.visited ∨ u ∈ s.queue.map Prod.fst)

/-! ## `scraper_service.py`: the batch orchestrators

`process_spider_crawl_batch_endpoint_logic` (lines 193-271) and
`process_duckduckgo_search_and_scrape_endpoint_logic` (lines 273-354).
The regex-based failure-artifact filtering (the `filter_patterns` loop
of lines 243-253) is the Python `re` module, abstracted as `stripFn`.
On the search path the source's `filter_patterns` literal at line 333 is
not valid Python (a C-style comment inside a list); following its
comment "as defined in previous function", that path gets the same
abstract `stripFn`.  `asyncio.gather(..., return_exceptions=True)` and
the exception arm of the merge loop are not modelled: each task is a
value of the embedding, so no task raises. -/

/-- Lines 203-217 / 294-303: the launch loop.  `key_assignment_index`
(respectively `current_key_index_for_parallel`) starts at 0 for the
batch and is incremented once per launched task; task `i` pairs the
`i`-th selected work item with `pool[index % len(pool)]`. -/
def assignKeys {α : Type} (pool : List String) : List α → Nat → List (α × String)
  | [], _ => []
  | u :: rest, key_assignment_index =>
    (u, pool.getD (key_assignment_index % pool.length) "")
      :: assignKeys pool rest (key_assignment_index + 1)

/-- Lines 198-207: the multi-site launch plan — the first
`min(len(base_urls), len(pool), cap)` base URLs, with round-robin keys. -/
def spiderBatchTasks (pool base_urls : List String) (cap : Nat) :
    List (String × String) :=
  assignKeys pool (base_urls.take (min (min base_urls.length pool.length) cap)) 0

/-- Lines 195 / 275: the error list of the empty-pool short-circuit. -/
def configErrorList : List String :=
  ["Server configuration error: No ScraperAPI keys."]

/-- Line 258: the multi-site no-substantial-content message. -/
def spiderNoSubstMsg : String :=
  "After attempting to scrape, no substantial content was found to summarize."

/-- Line 341: the search-path no-substantial-content message. -/
def searchNoSubstMsg : String :=
  "After fetching DuckDuckGo results, no substantial content was extracted to provide a meaningful summary."

/-- Lines 260 / 343: the hint sentence appended when errors were recorded. -/
def errorsHint : String :=
  " Encountered issues (see system messages/console for details). Please ensure ScraperAPI keys are valid and sites are accessible."

/-- Lines 257-271 (and, per intent, 340-354): the post-filter threshold
check.  If the filtered content is empty or shorter than
`MIN_CONTENT_LENGTH_FOR_SUMMARY`, the content is replaced by the fixed
message, with the hint appended exactly when errors were recorded; the
error list is returned unchanged in either case. -/
def finalizeAggregated (noSubstMsg meaningful : String) (errs : List String) :
    String × List String :=
  if meaningful = "" ∨ meaningful.length < MIN_CONTENT_LENGTH_FOR_SUMMARY then
    (if errs = [] then noSubstMsg else noSubstMsg ++ errorsHint, errs)
  else
    (meaningful, errs)

/-- The observable outcome of one multi-site batch call: the launched
`(base_url, api_key)` tasks in launch order, the returned content and
error list, and whether the empty-pool short-circuit fired. -/
structure BatchOut where
  launched : List (String × String)
  aggregated_content : String
  all_errors : List String
  isConfigError : Bool

/-- `scraper_service.py` lines 193-271:
`process_spider_crawl_batch_endpoint_logic`. -/
def process_spider_crawl_batch_endpoint_logic (env : SpiderEnv)
    (stripFn : String → String) (pool : List String) (query : String)
    (base_urls : List String) (max_depth_internal max_links_per_url : Nat) :
    BatchOut :=
  if pool = [] then
    { launched := [], aggregated_content := "", all_errors := configErrorList,
      isConfigError := true }
  else
    let tasks := spiderBatchTasks pool base_urls MAX_CONCURRENT_SCRAPES
    let results := tasks.map fun p =>
      siteCrawlResultOf p.1 p.2
        (process_single_site_for_spider_crawl env p.1 p.2 query
          max_depth_internal max_links_per_url)
    let content_str := String.intercalate "\n\n" (results.map (·.aggregated_content))
    let all_errors_reported := (results.map (·.errors)).flatten
    let meaningful := stripFn content_str
    let fin := finalizeAggregated spiderNoSubstMsg meaningful all_errors_reported
    { launched := tasks, aggregated_content := fin.1, all_errors := fin.2,
      isConfigError := false }

/-- One DuckDuckGo search record (`{url, title, snippet}`), after the
`r.get('href')` presence filter. -/
structure SearchHit where
  url : String
  title : String
  snippet : String
deriving DecidableEq

/-- External collaborators of the search path: the DuckDuckGo text
search and the markdown-format fetch (one `fetch_url_with_scraperapi`
call with `output_format="markdown"`). -/
structure SearchEnv where
  searchWeb : String → Nat → List SearchHit
  fetchMd : String → String → FetchResult

/-- Line 321: the error string for a failed per-result fetch. -/
def searchMsgError (url : String) (fr : FetchResult) (m : String) : String :=
  "Error fetching " ++ url ++ " (Key ..." ++ pyLast4 fr.key_used ++ ", Status "
    ++ toString fr.status_code ++ "): " ++ m

/-- Line 329: the low/no-content error string. -/
def searchMsgLow (url : String) (fr : FetchResult) : String :=
  "Low/No content from " ++ url ++ " (Key ..." ++ pyLast4 fr.key_used ++ ", Status "
    ++ toString fr.status_code ++ "). Markdown length: "
    ++ toString ((fr.raw_response_text.getD "").length)

/-- Line 326: a labeled search-content block. -/
def searchContentBlock (title url t : String) : String :=
  "### Content from: " ++ title ++ " (" ++ url ++ ")\n" ++ t

/-- Lines 313-329: the per-result merge loop, in task order, producing
(content parts, error strings, processed sources).  A source is
"processed" only when its markdown is non-empty and exceeds half the
minimum summary length (`2*len > MIN`, for `len > MIN/2` under true
division). -/
def searchCollect (env : SearchEnv) : List (SearchHit × String) →
    List String × List String × List (String × String)
  | [] => ([], [], [])
  | (hit, key) :: rest =>
    let fr := env.fetchMd key hit.url
    let acc := searchCollect env rest
    match fr.error_message with
    | some m => (acc.1, searchMsgError hit.url fr m :: acc.2.1, acc.2.2)
    | none =>
      match fr.raw_response_text with
      | some t =>
        if t ≠ "" ∧ 2 * t.length > MIN_CONTENT_LENGTH_FOR_SUMMARY then
          (searchContentBlock hit.title hit.url t :: acc.1, acc.2.1,
            (hit.title, hit.url) :: acc.2.2)
        else
          (acc.1, searchMsgLow hit.url fr :: acc.2.1, acc.2.2)
      | none => (acc.1, searchMsgLow hit.url fr :: acc.2.1, acc.2.2)

/-- Lines 297-305: the search-path launch plan. -/
def searchBatchTasks (pool : List String) (hits : List SearchHit) (cap : Nat) :
    List (SearchHit × String) :=
  assignKeys pool (hits.take (min (min hits.length pool.length) cap)) 0

/-- The observable outcome of one search-and-scrape call: how many
search requests were issued, the launched `(url, api_key)` fetches, and
the returned fields. -/
structure SearchOut where
  searchCalls : Nat
  launched : List (String × String)
  aggregated_search_content : String
  sources : List (String × String)
  all_errors : List String
  isConfigError : Bool

/-- `scraper_service.py` lines 273-354:
`process_duckduckgo_search_and_scrape_endpoint_logic` (the
DuckDuckGo-failure `except` arm is not modelled; `searchWeb` is total). -/
def process_duckduckgo_search_and_scrape_endpoint_logic (env : SearchEnv)
    (stripFn : String → String) (pool : List String) (query : String)
    (num_results : Nat) : SearchOut :=
  if pool = [] then
    { searchCalls := 0, launched := [], aggregated_search_content := ""
      sources := [], all_errors := configErrorList, isConfigError := true }
  else
    let hits := env.searchWeb query num_results
    if hits = [] then
      { searchCalls := 1, launched := []
        aggregated_search_content := "No results found on DuckDuckGo for your query."
        sources := [], all_errors := [], isConfigError := false }
    else
      let tasks := searchBatchTasks pool hits MAX_CONCURRENT_SCRAPES
      let acc := searchCollect env tasks
      let content_str := String.intercalate "\n\n---\n\n" acc.1
      let meaningful := stripFn content_str
      let fin := finalizeAggregated searchNoSubstMsg meaningful acc.2.1
      { searchCalls := 1, launched := tasks.map fun p => (p.1.url, p.2)
        aggregated_search_content := fin.1, sources := acc.2.2
        all_errors := fin.2, isConfigError := false }

/-! ## Concrete collaborator instances used in scenarios and witnesses -/

/-- A successful empty fetch result (concrete scenario data). -/
def emptyFetchResult : FetchResult :=
  { raw_response_text := none, status_code := 0, error_message := none
    final_url := "", key_used := "", is_critical_error := false }

/-- An HTML environment whose parser finds nothing. -/
def trivialHtmlEnv : HtmlEnv :=
  { findAnchors := fun _ => [], urljoin := fun _ h => h
    urlparse := fun _ => ⟨"", "", "", ""⟩
    dateLikePath := fun _ => false, assetPath := fun _ => false }

/-- A spider environment whose fetches return the empty success result. -/
def trivialSpiderEnv : SpiderEnv :=
  { fetchOf := fun _ _ => emptyFetchResult
    extractContent := fun _ _ => "", html := trivialHtmlEnv }

/-- A search environment with no results. -/
def trivialSearchEnv : SearchEnv :=
  { searchWeb := fun _ _ => [], fetchMd := fun _ _ => emptyFetchResult }

/-- A network on which every request comes back `401 Unauthorized`. -/
def net401 : Nat → HttpOutcome := fun _ => .status 401 "Unauthorized"

/-- A concrete critical fetch failure (concrete scenario data). -/
def errFetchResult : FetchResult :=
  { raw_response_text := none, status_code := 0, error_message := some "boom"
    final_url := "http://a", key_used := "k", is_critical_error := true }

/-- A spider environment whose every fetch fails critically. -/
def envErr : SpiderEnv :=
  { fetchOf := fun _ _ => errFetchResult
    extractContent := fun _ _ => "", html := trivialHtmlEnv }

/-- A concrete successful fetch with a non-empty body. -/
def okFetchResult : FetchResult :=
  { raw_response_text := some "<html><body>hi</body></html>", status_code := 200
    error_message := none, final_url := "http://a", key_used := "k"
    is_critical_error := false }

/-- A spider environment whose every fetch succeeds with the same body. -/
def envOk : SpiderEnv :=
  { fetchOf := fun _ _ => okFetchResult
    extractContent := fun _ _ => "", html := trivialHtmlEnv }

/-- A spider environment wired to the real fetch client over `net401`
(each page fetch is one `fetch_url_with_scraperapi` call with the
default `retry_count=0`, `max_retries=1`). -/
def spiderEnv401 : SpiderEnv :=
  { fetchOf := fun key url => (fetch_url_with_scraperapi net401 url key 0 1).result
    extractContent := fun _ _ => "", html := trivialHtmlEnv }

/-! ## Lemmas: list-prefix facts for the key predicates -/

/-- A successful `isPrefixOf` test exhibits a suffix. -/
theorem isPrefixOf_exists {l₁ l₂ : List Char} (h : l₁.isPrefixOf l₂ = true) :
    ∃ t, l₂ = l₁ ++ t := by
  induction l₁ generalizing l₂ with
  | nil => exact ⟨l₂, rfl⟩
  | cons a as ih =>
    cases l₂ with
    | nil => simp [List.isPrefixOf] at h
    | cons b bs =>
      simp only [List.isPrefixOf, Bool.and_eq_true, beq_iff_eq] at h
      obtain ⟨t, ht⟩ := ih h.2
      exact ⟨t, by rw [← h.1, ht]; rfl⟩

/-- `isPrefixOf` succeeds on an explicit append. -/
theorem isPrefixOf_append (l₁ t : List Char) : l₁.isPrefixOf (l₁ ++ t) = true := by
  induction l₁ with
  | nil => simp [List.isPrefixOf]
  | cons a as ih => simp [List.isPrefixOf, ih]

/-- A key passing the `config.py` validity filter cannot trip the fetch
client's placeholder guard: it is non-empty, and a `"YOUR_SCRAPERAPI_KEY_"`
prefix would survive lowering as a `"your_"` prefix, which the filter
excludes. -/
theorem validKey_not_placeholder {k : String} (h : isValidKey k = true) :
    isPlaceholderKey k = false := by
  unfold isValidKey at h
  simp only [Bool.and_eq_true, Bool.not_eq_true'] at h
  obtain ⟨⟨hne, hyour⟩, hlen⟩ := h
  unfold isPlaceholderKey
  rw [Bool.or_eq_false_iff]
  refine ⟨hne, ?_⟩
  by_contra hpre
  rw [Bool.not_eq_false] at hpre
  obtain ⟨t, ht⟩ := isPrefixOf_exists hpre
  have hlow : (pyLower k).data = "your_scraperapi_key_".data ++ t.map Char.toLower := by
    show k.data.map Char.toLower = _
    rw [ht, List.map_append]
    congr 1
  have hyes : pyStartsWith (pyLower k) "your_" = true := by
    unfold pyStartsWith
    rw [hlow]
    have hsplit : "your_scraperapi_key_".data = "your_".data ++ "scraperapi_key_".data := by
      decide
    rw [hsplit, List.append_assoc]
    exact isPrefixOf_append _ _
  rw [hyes] at hyour
  exact Bool.noConfusion hyour

/-! ## Lemmas: unfolding equations for `fetch_url_with_scraperapi` -/

/-- The placeholder guard returns with zero HTTP calls. -/
theorem fetch_placeholder_eq (net : Nat → HttpOutcome) (u k : String) (rc mr : Nat)
    (hk : isPlaceholderKey k = true) :
    fetch_url_with_scraperapi net u k rc mr =
      { result := placeholderResult u k, sleeps := [], netCalls := 0 } := by
  rw [fetch_url_with_scraperapi.eq_def, hk]
  simp

/-- When the attempt resolves to a returned dictionary, the call returns
it after exactly one HTTP request. -/
theorem fetch_done_eq (net : Nat → HttpOutcome) (u k : String) (rc mr : Nat)
    (r : FetchResult) (hk : isPlaceholderKey k = false)
    (hb : fetchBody (net rc) u k rc mr = .done r) :
    fetch_url_with_scraperapi net u k rc mr =
      { result := r, sleeps := [], netCalls := 1 } := by
  rw [fetch_url_with_scraperapi.eq_def, hk]
  simp only [Bool.false_eq_true, if_false]
  split
  · next r' heq =>
    rw [hb] at heq
    injection heq with h
    rw [h]
  · next slp rc' heq =>
    rw [hb] at heq
    cases heq

/-- When the attempt resolves to a retry action, the call sleeps and
recurses with the new retry counter, issuing one more HTTP request than
the recursive call. -/
theorem fetch_retry_eq (net : Nat → HttpOutcome) (u k : String) (rc mr : Nat)
    (slp rc' : Nat) (hk : isPlaceholderKey k = false)
    (hb : fetchBody (net rc) u k rc mr = .retry slp rc') :
    fetch_url_with_scraperapi net u k rc mr =
      { result := (fetch_url_with_scraperapi net u k rc' mr).result
        sleeps := slp :: (fetch_url_with_scraperapi net u k rc' mr).sleeps
        netCalls := (fetch_url_with_scraperapi net u k rc' mr).netCalls + 1 } := by
  rw [fetch_url_with_scraperapi.eq_def, hk]
  simp only [Bool.false_eq_true, if_false]
  split
  · next r' heq =>
    rw [hb] at heq
    cases heq
  · next slp2 rc2 heq =>
    rw [hb] at heq
    injection heq with h1 h2
    rw [h1, h2]

/-- Past the placeholder guard, every run issues at least one HTTP request. -/
theorem fetch_netCalls_pos (net : Nat → HttpOutcome) (u k : String) (rc mr : Nat)
    (hk : isPlaceholderKey k = false) :
    1 ≤ (fetch_url_with_scraperapi net u k rc mr).netCalls := by
  rw [fetch_url_with_scraperapi.eq_def, hk]
  simp only [Bool.false_eq_true, if_false]
  split <;> simp

/-- The attempt-level behaviour on a retryable proxy status: retry
while the budget lasts, otherwise the `TypeError` return of line 94
surfaces through the catch-all arm. -/
theorem fetchBody_retryable (code : Nat) (body u k : String) (rc mr : Nat)
    (hcode : code ∈ retryableStatuses) :
    fetchBody (.status code body) u k rc mr =
      if rc < mr then
        .retry ((rc + 1) * 3) (rc + 1)
      else
        .done (typeErrorResult u k) := by
  fin_cases hcode <;> simp [fetchBody, retryableStatuses]

/-! ## Claim C5: retryable proxy statuses back off `(attempt+1)*3`
seconds and retry, and exhaust to a critical error -/

/-- C5: for a fetch attempt whose proxy response status lies in
{429, 500, 502, 503, 504}: while `retry_count < max_retries` the call
sleeps `(retry_count+1)*3` seconds and retries with `retry_count+1`
(one extra HTTP request around the recursive call); once
`retry_count ≥ max_retries` it returns without retrying, and the
returned result's error is marked critical (concretely it is the
catch-all `typeErrorResult`, since the exhaustion return at line 94
raises `TypeError`; `is_critical_error` is `true` either way). -/
theorem c5_retryable_status_backoff (net : Nat → HttpOutcome) (u k : String)
    (code : Nat) (body : String) (rc mr : Nat)
    (hcode : code ∈ retryableStatuses) (hk : isPlaceholderKey k = false)
    (hnet : net rc = .status code body) :
    (rc < mr →
      fetch_url_with_scraperapi net u k rc mr =
        { result := (fetch_url_with_scraperapi net u k (rc + 1) mr).result
          sleeps := (rc + 1) * 3 :: (fetch_url_with_scraperapi net u k (rc + 1) mr).sleeps
          netCalls := (fetch_url_with_scraperapi net u k (rc + 1) mr).netCalls + 1 }) ∧
    (mr ≤ rc →
      fetch_url_with_scraperapi net u k rc mr =
        { result := typeErrorResult u k, sleeps := [], netCalls := 1 } ∧
      (typeErrorResult u k).is_critical_error = true) := by
  constructor
  · intro hlt
    apply fetch_retry_eq net u k rc mr _ _ hk
    rw [hnet, fetchBody_retryable code body u k rc mr hcode, if_pos hlt]
  · intro hge
    refine ⟨?_, rfl⟩
    apply fetch_done_eq net u k rc mr _ hk
    rw [hnet, fetchBody_retryable code body u k rc mr hcode,
      if_neg (Nat.not_lt.mpr hge)]

/-- Witness for C5 at status 429, `retry_count = 0`, `max_retries = 1`:
the hypotheses hold and the attempt backs off 3 seconds and retries. -/
theorem c5_witness :
    (429 ∈ retryableStatuses ∧ isPlaceholderKey "abcdefghijklmnopqrstu" = false) ∧
    ((0 : Nat) < 1 →
      fetch_url_with_scraperapi (fun _ => .status 429 "oops") "http://example.com"
          "abcdefghijklmnopqrstu" 0 1 =
        { result := (fetch_url_with_scraperapi (fun _ => .status 429 "oops")
            "http://example.com" "abcdefghijklmnopqrstu" (0 + 1) 1).result
          sleeps := (0 + 1) * 3 :: (fetch_url_with_scraperapi (fun _ => .status 429 "oops")
            "http://example.com" "abcdefghijklmnopqrstu" (0 + 1) 1).sleeps
          netCalls := (fetch_url_with_scraperapi (fun _ => .status 429 "oops")
            "http://example.com" "abcdefghijklmnopqrstu" (0 + 1) 1).netCalls + 1 }) :=
  ⟨⟨by decide, by decide⟩,
    (c5_retryable_status_backoff (fun _ => .status 429 "oops") "http://example.com"
      "abcdefghijklmnopqrstu" 429 "oops" 0 1 (by decide) (by decide) rfl).1⟩

/-! ## Claim C1 (corrected): timeouts do not retry; only connection
errors get the `(attempt+1)*2` backoff -/

/-- C1 counterexample: with the network timing out on every attempt and
`retry_count = 0 < max_retries = 1`, the claim requires a 2-second
backoff sleep and a second attempt; the code performs no sleep, issues
exactly one HTTP request, and returns a non-critical error. -/
theorem c1_counterexample :
    (fetch_url_with_scraperapi (fun _ => .timeout "read timeout") "http://example.com"
      "abcdefghijklmnopqrstu" 0 1).sleeps = [] ∧
    (fetch_url_with_scraperapi (fun _ => .timeout "read timeout") "http://example.com"
      "abcdefghijklmnopqrstu" 0 1).netCalls = 1 ∧
    (fetch_url_with_scraperapi (fun _ => .timeout "read timeout") "http://example.com"
      "abcdefghijklmnopqrstu" 0 1).result.is_critical_error = false ∧
    ¬ ((fetch_url_with_scraperapi (fun _ => .timeout "read timeout") "http://example.com"
        "abcdefghijklmnopqrstu" 0 1).sleeps = [(0 + 1) * 2] ∧
       (fetch_url_with_scraperapi (fun _ => .timeout "read timeout") "http://example.com"
        "abcdefghijklmnopqrstu" 0 1).netCalls = 2) := by
  have h : fetch_url_with_scraperapi (fun _ => .timeout "read timeout") "http://example.com"
      "abcdefghijklmnopqrstu" 0 1 =
      { result := { raw_response_text := none, status_code := 0
                    error_message := some (msgTimeout "http://example.com"
                      "abcdefghijklmnopqrstu" "read timeout")
                    final_url := "http://example.com", key_used := "abcdefghijklmnopqrstu"
                    is_critical_error := decide ((1 : Nat) ≤ 0) }
        sleeps := [], netCalls := 1 } :=
    fetch_done_eq _ _ _ _ _ _ (by decide) rfl
  rw [h]
  refine ⟨rfl, rfl, by decide, ?_⟩
  intro hcl
  cases hcl.1

/-- C1 (amended): on an `httpx.TimeoutException` the fetch does not
retry — it returns at once with the timeout error, marked critical
exactly when `retry_count ≥ max_retries`; on an `httpx.RequestError`
(connection error) it sleeps `(retry_count+1)*2` seconds and retries
with `retry_count+1` while `retry_count < max_retries`, and returns a
critical error once the budget is exhausted. -/
theorem c1_timeout_no_retry_network_backoff (net : Nat → HttpOutcome)
    (u k m : String) (rc mr : Nat) (hk : isPlaceholderKey k = false) :
    (net rc = .timeout m →
      fetch_url_with_scraperapi net u k rc mr =
        { result := { raw_response_text := none, status_code := 0
                      error_message := some (msgTimeout u k m)
                      final_url := u, key_used := k
                      is_critical_error := decide (mr ≤ rc) }
          sleeps := [], netCalls := 1 }) ∧
    (net rc = .netError m → rc < mr →
      fetch_url_with_scraperapi net u k rc mr =
        { result := (fetch_url_with_scraperapi net u k (rc + 1) mr).result
          sleeps := (rc + 1) * 2 :: (fetch_url_with_scraperapi net u k (rc + 1) mr).sleeps
          netCalls := (fetch_url_with_scraperapi net u k (rc + 1) mr).netCalls + 1 }) ∧
    (net rc = .netError m → mr ≤ rc →
      fetch_url_with_scraperapi net u k rc mr =
        { result := { raw_response_text := none, status_code := 0
                      error_message := some (msgNetError u k m)
                      final_url := u, key_used := k, is_critical_error := true }
          sleeps := [], netCalls := 1 }) := by
  refine ⟨?_, ?_, ?_⟩
  · intro hnet
    apply fetch_done_eq net u k rc mr _ hk
    rw [hnet]
    rfl
  · intro hnet hlt
    apply fetch_retry_eq net u k rc mr _ _ hk
    rw [hnet]
    simp [fetchBody, hlt]
  · intro hnet hge
    apply fetch_done_eq net u k rc mr _ hk
    rw [hnet]
    simp [fetchBody, Nat.not_lt.mpr hge]

/-- Witness for the amended C1 at a timeout with `retry_count = 0`,
`max_retries = 1`. -/
theorem c1_witness :
    isPlaceholderKey "abcdefghijklmnopqrstu" = false ∧
    ((fun _ => HttpOutcome.timeout "t0") 0 = HttpOutcome.timeout "t0" →
      fetch_url_with_scraperapi (fun _ => .timeout "t0") "http://example.com"
          "abcdefghijklmnopqrstu" 0 1 =
        { result := { raw_response_text := none, status_code := 0
                      error_message := some (msgTimeout "http://example.com"
                        "abcdefghijklmnopqrstu" "t0")
                      final_url := "http://example.com"
                      key_used := "abcdefghijklmnopqrstu"
                      is_critical_error := decide ((1 : Nat) ≤ 0) }
          sleeps := [], netCalls := 1 }) :=
  ⟨by decide,
    (c1_timeout_no_retry_network_backoff (fun _ => .timeout "t0") "http://example.com"
      "abcdefghijklmnopqrstu" "t0" 0 1 (by decide)).1⟩

/-! ## Claim C10: valid pool members never trip the placeholder guard -/

/-- C10: any credential that is a member of the valid pool (the
`config.py` filter: non-empty, longer than 20 characters, and not
starting case-insensitively with `"your_"`) fails the fetch client's
placeholder guard, so a fetch with it never returns the
`Invalid/Placeholder` zero-network-call rejection: every run issues at
least one HTTP request. -/
theorem c10_valid_keys_reach_network (cfg : List String) (key : String)
    (hmem : key ∈ cfg.filter isValidKey) :
    isPlaceholderKey key = false ∧
    ∀ (net : Nat → HttpOutcome) (u : String) (rc mr : Nat),
      1 ≤ (fetch_url_with_scraperapi net u key rc mr).netCalls ∧
      fetch_url_with_scraperapi net u key rc mr ≠
        { result := placeholderResult u key, sleeps := [], netCalls := 0 } := by
  have hv : isValidKey key = true := (List.mem_filter.mp hmem).2
  have hk := validKey_not_placeholder hv
  refine ⟨hk, fun net u rc mr => ?_⟩
  have hpos := fetch_netCalls_pos net u key rc mr hk
  refine ⟨hpos, fun heq => ?_⟩
  rw [heq] at hpos
  cases hpos

/-- Witness for C10 at the first configured key (a member of
`VALID_SCRAPER_API_KEYS`). -/
theorem c10_witness :
    "e1b46d8eff3b21afeadf257677bae4dd" ∈
        SCRAPER_API_KEYS_CONFIG.filter isValidKey ∧
    (isPlaceholderKey "e1b46d8eff3b21afeadf257677bae4dd" = false ∧
      ∀ (net : Nat → HttpOutcome) (u : String) (rc mr : Nat),
        1 ≤ (fetch_url_with_scraperapi net u "e1b46d8eff3b21afeadf257677bae4dd" rc mr).netCalls ∧
        fetch_url_with_scraperapi net u "e1b46d8eff3b21afeadf257677bae4dd" rc mr ≠
          { result := placeholderResult u "e1b46d8eff3b21afeadf257677bae4dd"
            sleeps := [], netCalls := 0 }) :=
  ⟨by decide,
    c10_valid_keys_reach_network SCRAPER_API_KEYS_CONFIG
      "e1b46d8eff3b21afeadf257677bae4dd" (by decide)⟩

/-! ## Lemmas: the round-robin launch plan -/

/-- One task per selected work item. -/
theorem assignKeys_length {α : Type} (pool : List String) (sel : List α) (j : Nat) :
    (assignKeys pool sel j).length = sel.length := by
  induction sel generalizing j with
  | nil => rfl
  | cons u rest ih => simp [assignKeys, ih]

/-- The launched work items are exactly the selected ones, in order. -/
theorem assignKeys_map_fst {α : Type} (pool : List String) (sel : List α) (j : Nat) :
    (assignKeys pool sel j).map Prod.fst = sel := by
  induction sel generalizing j with
  | nil => rfl
  | cons u rest ih => simp [assignKeys, ih]

/-- Task `i` of a plan started at counter `j` pairs the `i`-th selected
item with `pool[(j+i) % len(pool)]`. -/
theorem assignKeys_getElem {α : Type} (pool : List String) (sel : List α) (j i : Nat) :
    (assignKeys pool sel j)[i]? =
      sel[i]?.map (fun u => (u, pool.getD ((j + i) % pool.length) "")) := by
  induction sel generalizing j i with
  | nil => simp [assignKeys]
  | cons u rest ih =>
    cases i with
    | zero => simp [assignKeys]
    | succ n =>
      have harith : j + 1 + n = j + (n + 1) := by omega
      simp [assignKeys, ih, harith]

/-! ## Claim C4: batch size, launch order and round-robin assignment -/

/-- C4: for a non-empty credential pool of size K, both batch paths
launch exactly `min(M, K, MAX_CONCURRENT_SCRAPES)` tasks, in input
order over the first that many URLs (respectively search results); task
`i` (from 0) uses `pool[i % K]`; and the orchestrators launch exactly
these tasks, so no further URL is fetched. -/
theorem c4_launch_plan (pool : List String) (hp : pool ≠ [])
    (urls : List String) (hits : List SearchHit) (cap : Nat)
    (env : SpiderEnv) (senv : SearchEnv) (stripFn : String → String)
    (q : String) (mD mL nres : Nat) :
    ((spiderBatchTasks pool urls cap).length = min (min urls.length pool.length) cap ∧
     (spiderBatchTasks pool urls cap).map Prod.fst =
       urls.take (min (min urls.length pool.length) cap) ∧
     ∀ i, i < min (min urls.length pool.length) cap →
       (spiderBatchTasks pool urls cap)[i]? =
         urls[i]?.map (fun u => (u, pool.getD (i % pool.length) ""))) ∧
    ((searchBatchTasks pool hits cap).length = min (min hits.length pool.length) cap ∧
     (searchBatchTasks pool hits cap).map Prod.fst =
       hits.take (min (min hits.length pool.length) cap) ∧
     ∀ i, i < min (min hits.length pool.length) cap →
       (searchBatchTasks pool hits cap)[i]? =
         hits[i]?.map (fun u => (u, pool.getD (i % pool.length) ""))) ∧
    (process_spider_crawl_batch_endpoint_logic env stripFn pool q urls mD mL).launched =
      spiderBatchTasks pool urls MAX_CONCURRENT_SCRAPES ∧
    (process_duckduckgo_search_and_scrape_endpoint_logic senv stripFn pool q nres).launched =
      (searchBatchTasks pool (senv.searchWeb q nres) MAX_CONCURRENT_SCRAPES).map
        (fun p => (p.1.url, p.2)) := by
  refine ⟨⟨?_, ?_, ?_⟩, ⟨?_, ?_, ?_⟩, ?_, ?_⟩
  · rw [spiderBatchTasks, assignKeys_length, List.length_take]
    omega
  · exact assignKeys_map_fst pool _ 0
  · intro i hi
    rw [spiderBatchTasks, assignKeys_getElem, List.getElem?_take_of_lt hi,
      Nat.zero_add]
  · rw [searchBatchTasks, assignKeys_length, List.length_take]
    omega
  · exact assignKeys_map_fst pool _ 0
  · intro i hi
    rw [searchBatchTasks, assignKeys_getElem, List.getElem?_take_of_lt hi,
      Nat.zero_add]
  · rw [process_spider_crawl_batch_endpoint_logic, if_neg hp]
  · rw [process_duckduckgo_search_and_scrape_endpoint_logic, if_neg hp]
    by_cases hh : senv.searchWeb q nres = []
    · simp only [hh, if_pos]
      simp [searchBatchTasks, assignKeys]
    · rw [if_neg hh]

/-- Witness for C4: a two-key pool, three URLs, one search hit, cap 5. -/
theorem c4_witness :
    (["abcdefghijklmnopqrstu", "abcdefghijklmnopqrstv"] ≠ ([] : List String)) ∧
    ((spiderBatchTasks ["abcdefghijklmnopqrstu", "abcdefghijklmnopqrstv"]
        ["http://a", "http://b", "http://c"] 5).length =
      min (min 3 2) 5 ∧
     (spiderBatchTasks ["abcdefghijklmnopqrstu", "abcdefghijklmnopqrstv"]
        ["http://a", "http://b", "http://c"] 5).map Prod.fst =
      ["http://a", "http://b", "http://c"].take (min (min 3 2) 5)) := by
  have h := c4_launch_plan ["abcdefghijklmnopqrstu", "abcdefghijklmnopqrstv"]
    (by decide) ["http://a", "http://b", "http://c"] [] 5 trivialSpiderEnv
    trivialSearchEnv id "" 0 0 0
  exact ⟨by decide, h.1.1, h.1.2.1⟩

/-! ## Claim C7: the empty-pool short-circuit -/

/-- C7: with an empty valid-credential pool both orchestrators return
the configuration-error result immediately: no task is launched, and on
the search path no search call is made. -/
theorem c7_empty_pool_short_circuit (env : SpiderEnv) (senv : SearchEnv)
    (stripFn : String → String) (q : String) (urls : List String)
    (mD mL nres : Nat) :
    process_spider_crawl_batch_endpoint_logic env stripFn [] q urls mD mL =
      { launched := [], aggregated_content := ""
        all_errors := configErrorList, isConfigError := true } ∧
    process_duckduckgo_search_and_scrape_endpoint_logic senv stripFn [] q nres =
      { searchCalls := 0, launched := [], aggregated_search_content := ""
        sources := [], all_errors := configErrorList, isConfigError := true } := by
  constructor
  · rw [process_spider_crawl_batch_endpoint_logic, if_pos rfl]
  · rw [process_duckduckgo_search_and_scrape_endpoint_logic, if_pos rfl]

/-! ## Claim C8: the post-merge minimum-substance threshold -/

/-- C8 (behaviour of the shared finalize step, as implemented on the
multi-site path and intended on the search path): when the stripped
content is empty or shorter than `MIN_CONTENT_LENGTH_FOR_SUMMARY`, the
returned content is the fixed no-substantial-content message with the
hint sentence appended exactly when the error list is non-empty; the
error list is returned unchanged in every case. -/
theorem c8_finalize_threshold (msg meaningful : String) (errs : List String) :
    ((meaningful = "" ∨ meaningful.length < MIN_CONTENT_LENGTH_FOR_SUMMARY) →
      (finalizeAggregated msg meaningful errs).1 =
        (if errs = [] then msg else msg ++ errorsHint)) ∧
    (¬ (meaningful = "" ∨ meaningful.length < MIN_CONTENT_LENGTH_FOR_SUMMARY) →
      (finalizeAggregated msg meaningful errs).1 = meaningful) ∧
    (finalizeAggregated msg meaningful errs).2 = errs := by
  refine ⟨?_, ?_, ?_⟩
  · intro h
    rw [finalizeAggregated, if_pos h]
  · intro h
    rw [finalizeAggregated, if_neg h]
  · rw [finalizeAggregated]
    split <;> rfl

/-- Witness for C8 at a short content string with one recorded error. -/
theorem c8_witness :
    (("" : String) = "" ∨ ("" : String).length < MIN_CONTENT_LENGTH_FOR_SUMMARY) ∧
    (finalizeAggregated spiderNoSubstMsg "" ["err"]).1 =
      (if (["err"] : List String) = [] then spiderNoSubstMsg
       else spiderNoSubstMsg ++ errorsHint) ∧
    (finalizeAggregated spiderNoSubstMsg "" ["err"]).2 = ["err"] :=
  ⟨Or.inl rfl,
    (c8_finalize_threshold spiderNoSubstMsg "" ["err"]).1 (Or.inl rfl),
    (c8_finalize_threshold spiderNoSubstMsg "" ["err"]).2.2⟩

/-! ## Lemmas: one-step unfolding equations for `spiderLoop` -/

/-- An empty frontier ends the loop. -/
theorem spiderLoop_nil (env : SpiderEnv) (key : String) (qt : List String)
    (mD mP : Nat) (s : SpiderSt) (hq : s.queue = []) :
    spiderLoop env key qt mD mP s = s := by
  rw [spiderLoop.eq_def]
  split
  · rfl
  · next url d rest heq =>
    rw [hq] at heq
    cases heq

/-- A spent page budget ends the loop. -/
theorem spiderLoop_stop (env : SpiderEnv) (key : String) (qt : List String)
    (mD mP : Nat) (s : SpiderSt) (hc : ¬ s.count < mP) :
    spiderLoop env key qt mD mP s = s := by
  rw [spiderLoop.eq_def]
  split
  · rfl
  · rw [dif_neg hc]

/-- Dequeuing an already-visited URL just skips it. -/
theorem spiderLoop_skip_visited (env : SpiderEnv) (key : String) (qt : List String)
    (mD mP : Nat) (s : SpiderSt) (url : String) (d : Nat)
    (rest : List (String × Nat)) (hq : s.queue = (url, d) :: rest)
    (hc : s.count < mP) (hv : url ∈ s.visited) :
    spiderLoop env key qt mD mP s = spiderLoop env key qt mD mP (popSkip s rest) := by
  rw [spiderLoop.eq_def]
  split
  · next heq =>
    rw [heq] at hq
    cases hq
  · next url' d' rest' heq =>
    rw [hq] at heq
    simp only [List.cons.injEq, Prod.mk.injEq] at heq
    obtain ⟨⟨rfl, rfl⟩, rfl⟩ := heq
    rw [dif_pos hc, if_pos hv]

/-- Dequeuing an overly deep URL just skips it. -/
theorem spiderLoop_skip_depth (env : SpiderEnv) (key : String) (qt : List String)
    (mD mP : Nat) (s : SpiderSt) (url : String) (d : Nat)
    (rest : List (String × Nat)) (hq : s.queue = (url, d) :: rest)
    (hc : s.count < mP) (hv : url ∉ s.visited) (hd : mD < d) :
    spiderLoop env key qt mD mP s = spiderLoop env key qt mD mP (popSkip s rest) := by
  rw [spiderLoop.eq_def]
  split
  · next heq =>
    rw [heq] at hq
    cases hq
  · next url' d' rest' heq =>
    rw [hq] at heq
    simp only [List.cons.injEq, Prod.mk.injEq] at heq
    obtain ⟨⟨rfl, rfl⟩, rfl⟩ := heq
    rw [dif_pos hc, if_neg hv, if_pos hd]

/-- A fetch error records its error string; a critical error ends the
whole traversal there, a transient one moves on to the rest of the
frontier. -/
theorem spiderLoop_fetch_error (env : SpiderEnv) (key : String) (qt : List String)
    (mD mP : Nat) (s : SpiderSt) (url : String) (d : Nat)
    (rest : List (String × Nat)) (msg : String)
    (hq : s.queue = (url, d) :: rest) (hc : s.count < mP)
    (hv : url ∉ s.visited) (hd : ¬ mD < d)
    (he : (env.fetchOf key url).error_message = some msg) :
    spiderLoop env key qt mD mP s =
      (if (env.fetchOf key url).is_critical_error then
        recordError (beginProcess s url d rest)
          (fetchErrorString url (env.fetchOf key url) msg)
      else
        spiderLoop env key qt mD mP
          (recordError (beginProcess s url d rest)
            (fetchErrorString url (env.fetchOf key url) msg))) := by
  rw [spiderLoop.eq_def]
  split
  · next heq =>
    rw [heq] at hq
    cases hq
  · next url' d' rest' heq =>
    rw [hq] at heq
    simp only [List.cons.injEq, Prod.mk.injEq] at heq
    obtain ⟨⟨rfl, rfl⟩, rfl⟩ := heq
    rw [dif_pos hc, if_neg hv, if_neg hd]
    simp only [he]

/-- A fetch with no error but an absent body records the no-HTML error
and moves on. -/
theorem spiderLoop_no_html_none (env : SpiderEnv) (key : String) (qt : List String)
    (mD mP : Nat) (s : SpiderSt) (url : String) (d : Nat)
    (rest : List (String × Nat))
    (hq : s.queue = (url, d) :: rest) (hc : s.count < mP)
    (hv : url ∉ s.visited) (hd : ¬ mD < d)
    (he : (env.fetchOf key url).error_message = none)
    (hr : (env.fetchOf key url).raw_response_text = none) :
    spiderLoop env key qt mD mP s =
      spiderLoop env key qt mD mP
        (recordError (beginProcess s url d rest)
          (noHtmlString url (env.fetchOf key url))) := by
  rw [spiderLoop.eq_def]
  split
  · next heq =>
    rw [heq] at hq
    cases hq
  · next url' d' rest' heq =>
    rw [hq] at heq
    simp only [List.cons.injEq, Prod.mk.injEq] at heq
    obtain ⟨⟨rfl, rfl⟩, rfl⟩ := heq
    rw [dif_pos hc, if_neg hv, if_neg hd]
    simp only [he, hr]

/-- A fetch with no error but an empty body records the no-HTML error
and moves on. -/
theorem spiderLoop_no_html_empty (env : SpiderEnv) (key : String) (qt : List String)
    (mD mP : Nat) (s : SpiderSt) (url : String) (d : Nat)
    (rest : List (String × Nat))
    (hq : s.queue = (url, d) :: rest) (hc : s.count < mP)
    (hv : url ∉ s.visited) (hd : ¬ mD < d)
    (he : (env.fetchOf key url).error_message = none)
    (hr : (env.fetchOf key url).raw_response_text = some "") :
    spiderLoop env key qt mD mP s =
      spiderLoop env key qt mD mP
        (recordError (beginProcess s url d rest)
          (noHtmlString url (env.fetchOf key url))) := by
  rw [spiderLoop.eq_def]
  split
  · next heq =>
    rw [heq] at hq
    cases hq
  · next url' d' rest' heq =>
    rw [hq] at heq
    simp only [List.cons.injEq, Prod.mk.injEq] at heq
    obtain ⟨⟨rfl, rfl⟩, rfl⟩ := heq
    rw [dif_pos hc, if_neg hv, if_neg hd]
    simp only [he, hr, if_true]

/-- A successful fetch appends a content block; below the depth limit it
then runs the Link Relevance Filter with the per-page budget and the
enqueue loop, at the depth limit it extracts nothing and enqueues
nothing. -/
theorem spiderLoop_success (env : SpiderEnv) (key : String) (qt : List String)
    (mD mP : Nat) (s : SpiderSt) (url raw : String) (d : Nat)
    (rest : List (String × Nat))
    (hq : s.queue = (url, d) :: rest) (hc : s.count < mP)
    (hv : url ∉ s.visited) (hd : ¬ mD < d)
    (he : (env.fetchOf key url).error_message = none)
    (hr : (env.fetchOf key url).raw_response_text = some raw)
    (hraw : raw ≠ "") :
    spiderLoop env key qt mD mP s =
      (if d < mD then
        spiderLoop env key qt mD mP
          (enqueueLinks mP (d + 1)
            (recordExtract (contentStep env (beginProcess s url d rest) raw url)
              url DEFAULT_MAX_LINKS_PER_PAGE_SPIDER)
            (extract_relevant_internal_links env.html raw url qt
              DEFAULT_MAX_LINKS_PER_PAGE_SPIDER))
      else
        spiderLoop env key qt mD mP
          (contentStep env (beginProcess s url d rest) raw url)) := by
  rw [spiderLoop.eq_def]
  split
  · next heq =>
    rw [heq] at hq
    cases hq
  · next url' d' rest' heq =>
    rw [hq] at heq
    simp only [List.cons.injEq, Prod.mk.injEq] at heq
    obtain ⟨⟨rfl, rfl⟩, rfl⟩ := heq
    rw [dif_pos hc, if_neg hv, if_neg hd]
    simp only [he, hr]
    rw [if_neg hraw]

/-! ## Lemmas: preservation of the frontier invariant -/

/-- Appending a fresh element preserves `Nodup`. -/
theorem nodup_append_singleton {α : Type} {l : List α} {x : α}
    (hl : l.Nodup) (hx : x ∉ l) : (l ++ [x]).Nodup := by
  rw [List.nodup_append]
  exact ⟨hl, List.nodup_singleton x, by simpa using hx⟩

/-- Error strings do not touch the frontier invariant. -/
theorem Inv_recordError {mD mP : Nat} {s : SpiderSt} {e : String}
    (h : Inv mD mP s) : Inv mD mP (recordError s e) := h

/-- Content blocks do not touch the frontier invariant. -/
theorem Inv_recordPart {mD mP : Nat} {s : SpiderSt} {p : String}
    (h : Inv mD mP s) : Inv mD mP (recordPart s p) := h

/-- Trace entries for filter invocations do not touch the frontier invariant. -/
theorem Inv_recordExtract {mD mP : Nat} {s : SpiderSt} {url : String} {b : Nat}
    (h : Inv mD mP s) : Inv mD mP (recordExtract s url b) := h

/-- The content-extraction step does not touch the frontier invariant. -/
theorem Inv_contentStep {mD mP : Nat} {env : SpiderEnv} {s : SpiderSt}
    {raw url : String} (h : Inv mD mP s) : Inv mD mP (contentStep env s raw url) := by
  simp only [contentStep]
  split_ifs <;> exact h

/-- Dequeue-and-process preserves the invariant: the dequeued URL moves
from the frontier to the visited list and its fetch is recorded. -/
theorem Inv_beginProcess {mD mP : Nat} {s : SpiderSt} {url : String} {d : Nat}
    {rest : List (String × Nat)} (h : Inv mD mP s)
    (hq : s.queue = (url, d) :: rest) (hc : s.count < mP) (hd : d ≤ mD) :
    Inv mD mP (beginProcess s url d rest) := by
  obtain ⟨h1, h2, h3, h4, h5, h6, h7, h8⟩ := h
  rw [hq] at h1 h2 h8
  simp only [List.map_cons] at h1 h8
  refine ⟨?_, ?_, ?_, ?_, ?_, ?_, ?_, ?_⟩
  · show ((s.visited ++ [url]) ++ rest.map Prod.fst).Nodup
    rw [← List.append_cons]
    exact h1
  · intro p hp
    exact h2 p (List.mem_cons_of_mem _ hp)
  · show s.dequeues + 1 = s.count + 1
    omega
  · show (s.fetches ++ [(url, d)]).length = s.count + 1
    simp [h4]
  · show s.count + 1 ≤ mP
    omega
  · intro p hp
    rcases List.mem_append.mp hp with hold | hnew
    · exact h6 p hold
    · rw [List.mem_singleton.mp hnew]
      exact hd
  · exact h7
  · intro u hu
    rcases h8 u hu with hvis | hqueue
    · exact Or.inl (List.mem_append_left _ hvis)
    · rcases List.mem_cons.mp hqueue with rfl | hrest
      · exact Or.inl (List.mem_append_right _ (List.mem_singleton_self _))
      · exact Or.inr hrest

/-- One enqueue step preserves the invariant. -/
theorem Inv_enqueueLink {mD mP d1 : Nat} {st : SpiderSt} {link : String}
    (h : Inv mD mP st) (hd1 : d1 ≤ mD) :
    Inv mD mP (enqueueLink mP d1 st link) := by
  unfold enqueueLink
  split_ifs with hgate hfresh
  · obtain ⟨h1, h2, h3, h4, h5, h6, h7, h8⟩ := h
    obtain ⟨hnv, hnq⟩ := hfresh
    have hlinkq : link ∉ st.queue.map Prod.fst := by
      intro hmem
      obtain ⟨q, hqmem, hq1⟩ := List.mem_map.mp hmem
      exact hnq q hqmem hq1
    refine ⟨?_, ?_, ?_, ?_, ?_, ?_, ?_, ?_⟩
    · show (st.visited ++ (st.queue ++ [(link, d1)]).map Prod.fst).Nodup
      rw [List.map_append, ← List.append_assoc]
      refine nodup_append_singleton h1 ?_
      intro hmem
      rcases List.mem_append.mp hmem with hv | hq
      · exact hnv hv
      · exact hlinkq (by simpa using hq)
    · intro p hp
      rcases List.mem_append.mp hp with hold | hnew
      · exact h2 p hold
      · rw [List.mem_singleton.mp hnew]
        exact hd1
    · exact h3
    · exact h4
    · exact h5
    · exact h6
    · show ((st.enqueues ++ [(link, d1)]).map Prod.fst).Nodup
      rw [List.map_append]
      refine nodup_append_singleton h7 ?_
      intro hmem
      rcases h8 link hmem with hvis | hq
      · exact hnv hvis
      · exact hlinkq hq
    · intro u hu
      rw [List.map_append] at hu
      rcases List.mem_append.mp hu with hold | hnew
      · rcases h8 u hold with hvis | hq
        · exact Or.inl hvis
        · refine Or.inr ?_
          rw [List.map_append]
          exact List.mem_append_left _ hq
      · refine Or.inr ?_
        rw [List.map_append]
        refine List.mem_append_right _ ?_
        simpa using hnew
  · exact h
  · exact h

/-- The whole enqueue loop preserves the invariant. -/
theorem Inv_enqueueLinks {mD mP d1 : Nat} (links : List String) :
    ∀ {st : SpiderSt}, Inv mD mP st → d1 ≤ mD →
      Inv mD mP (enqueueLinks mP d1 st links) := by
  induction links with
  | nil => intro st h _; exact h
  | cons l t ih =>
    intro st h hd1
    exact ih (Inv_enqueueLink h hd1) hd1

/-- The spider loop preserves the frontier invariant. -/
theorem spiderLoop_Inv (env : SpiderEnv) (key : String) (qt : List String)
    (mD mP : Nat) (s : SpiderSt) (h : Inv mD mP s) :
    Inv mD mP (spiderLoop env key qt mD mP s) := by
  induction s using spiderLoop.induct env key qt mD mP with
  | case1 x hq =>
    rw [spiderLoop_nil env key qt mD mP x hq]
    exact h
  | case2 x url d rest hq hc hv ih =>
    exfalso
    have h1 := h.1
    rw [hq] at h1
    simp only [List.map_cons] at h1
    have hdisj := (List.nodup_append.mp h1).2.2
    exact hdisj hv (List.mem_cons_self _ _)
  | case3 x url d rest hq hc hv hd ih =>
    exfalso
    have h2 := h.2.1
    rw [hq] at h2
    exact Nat.not_lt.mpr (h2 (url, d) (List.mem_cons_self _ _)) hd
  | case4 x url d rest hq hc hv hd fr msg he hcrit =>
    rw [spiderLoop_fetch_error env key qt mD mP x url d rest msg hq hc hv hd he,
      if_pos hcrit]
    exact Inv_recordError (Inv_beginProcess h hq hc (Nat.not_lt.mp hd))
  | case5 x url d rest hq hc hv hd fr s1 msg he s2 hcrit ih =>
    rw [spiderLoop_fetch_error env key qt mD mP x url d rest msg hq hc hv hd he,
      if_neg hcrit]
    exact ih (Inv_recordError (Inv_beginProcess h hq hc (Nat.not_lt.mp hd)))
  | case6 x url d rest hq hc hv hd fr s1 he hr ih =>
    rw [spiderLoop_no_html_none env key qt mD mP x url d rest hq hc hv hd he hr]
    exact ih (Inv_recordError (Inv_beginProcess h hq hc (Nat.not_lt.mp hd)))
  | case7 x url d rest hq hc hv hd fr s1 he hr ih =>
    rw [spiderLoop_no_html_empty env key qt mD mP x url d rest hq hc hv hd he hr]
    exact ih (Inv_recordError (Inv_beginProcess h hq hc (Nat.not_lt.mp hd)))
  | case8 x url d rest hq hc hv hd fr s1 he raw hr hraw s2 hdlt ih =>
    rw [spiderLoop_success env key qt mD mP x url raw d rest hq hc hv hd he hr hraw,
      if_pos hdlt]
    exact ih (Inv_enqueueLinks _
      (Inv_recordExtract (Inv_contentStep (Inv_beginProcess h hq hc (Nat.not_lt.mp hd))))
      hdlt)
  | case9 x url d rest hq hc hv hd fr s1 he raw hr hraw s2 hdlt ih =>
    rw [spiderLoop_success env key qt mD mP x url raw d rest hq hc hv hd he hr hraw,
      if_neg hdlt]
    exact ih (Inv_contentStep (Inv_beginProcess h hq hc (Nat.not_lt.mp hd)))
  | case10 x url d rest hq hc =>
    rw [spiderLoop_stop env key qt mD mP x hc]
    exact h

/-- The initial spider state satisfies the invariant. -/
theorem Inv_initSt (mD mP : Nat) (base_url : String) :
    Inv mD mP (initSt base_url) := by
  refine ⟨?_, ?_, rfl, rfl, Nat.zero_le _, ?_, ?_, ?_⟩
  · simp [initSt]
  · intro p hp
    rw [initSt] at hp
    simp only [List.mem_singleton] at hp
    rw [hp]
    exact Nat.zero_le _
  · intro p hp
    simp [initSt] at hp
  · simp [initSt]
  · intro u hu
    simp only [initSt, List.map_cons, List.map_nil, List.mem_singleton] at hu
    exact Or.inr (by simp [initSt, hu])

/-! ## Claim C3: BFS depth, budget and single-enqueue invariants -/

/-- C3: over a whole spider run, no page is fetched at a frontier depth
above `max_depth`, at most `max_pages` pages are fetched, every URL is
enqueued into the frontier at most once, and the number of dequeued
frontier entries never exceeds the page budget. -/
theorem c3_spider_bfs_invariants (env : SpiderEnv)
    (base_url api_key original_query : String) (max_depth max_pages : Nat) :
    (∀ p ∈ (process_single_site_for_spider_crawl env base_url api_key
        original_query max_depth max_pages).fetches, p.2 ≤ max_depth) ∧
    (process_single_site_for_spider_crawl env base_url api_key
        original_query max_depth max_pages).fetches.length ≤ max_pages ∧
    ((process_single_site_for_spider_crawl env base_url api_key
        original_query max_depth max_pages).enqueues.map Prod.fst).Nodup ∧
    (process_single_site_for_spider_crawl env base_url api_key
        original_query max_depth max_pages).dequeues ≤ max_pages := by
  have h := spiderLoop_Inv env api_key (queryTermsOf original_query)
    max_depth max_pages (initSt base_url) (Inv_initSt max_depth max_pages base_url)
  obtain ⟨h1, h2, h3, h4, h5, h6, h7, h8⟩ := h
  exact ⟨h6, by rw [process_single_site_for_spider_crawl]; omega,
    h7, by rw [process_single_site_for_spider_crawl]; omega⟩

/-! ## Claim C2 (corrected): error recording, critical abort, transient
skip — but the 401 error string does not contain "401" -/

/-- The 401 scenario computed against the real fetch client: with the
network answering `401 Unauthorized`, the fetch attempt's return at
line 78 raises `TypeError` (httpx `Response.text` is a property), so
the spider receives the catch-all `typeErrorResult` — critical — and
the run ends after recording its error string for the base page. -/
theorem spider401_run_eq :
    process_single_site_for_spider_crawl spiderEnv401 "http://site.example"
        "abcdefghijklmnopqrstu" "" 1 3 =
      recordError
        (beginProcess (initSt "http://site.example") "http://site.example" 0 [])
        (fetchErrorString "http://site.example"
          (typeErrorResult "http://site.example" "abcdefghijklmnopqrstu")
          (msgUnexpected "http://site.example" "abcdefghijklmnopqrstu"
            strNotCallableMsg)) := by
  have hb : fetchBody (net401 0) "http://site.example" "abcdefghijklmnopqrstu" 0 1 =
      .done (typeErrorResult "http://site.example" "abcdefghijklmnopqrstu") := by
    decide
  have hf : spiderEnv401.fetchOf "abcdefghijklmnopqrstu" "http://site.example" =
      typeErrorResult "http://site.example" "abcdefghijklmnopqrstu" := by
    show (fetch_url_with_scraperapi net401 "http://site.example"
      "abcdefghijklmnopqrstu" 0 1).result = _
    rw [fetch_done_eq net401 "http://site.example" "abcdefghijklmnopqrstu" 0 1 _
      (by decide) hb]
  rw [process_single_site_for_spider_crawl]
  rw [spiderLoop_fetch_error spiderEnv401 "abcdefghijklmnopqrstu" (queryTermsOf "")
    1 3 (initSt "http://site.example") "http://site.example" 0 []
    (msgUnexpected "http://site.example" "abcdefghijklmnopqrstu" strNotCallableMsg)
    rfl (by decide) (by simp [initSt]) (by decide)
    (by simp [hf, typeErrorResult])]
  rw [if_pos (by simp [hf, typeErrorResult]), hf]

/-- C2 counterexample: in the claim's own 401 scenario, the single
recorded error string is the `Status 0` / catch-all one — it does not
contain `"401"` (the branch that would report the 401 never returns;
its `await response.text()` raises `TypeError` first). -/
theorem c2_counterexample :
    (process_single_site_for_spider_crawl spiderEnv401 "http://site.example"
        "abcdefghijklmnopqrstu" "" 1 3).errors =
      [fetchErrorString "http://site.example"
        (typeErrorResult "http://site.example" "abcdefghijklmnopqrstu")
        (msgUnexpected "http://site.example" "abcdefghijklmnopqrstu"
          strNotCallableMsg)] ∧
    pyContains
      (fetchErrorString "http://site.example"
        (typeErrorResult "http://site.example" "abcdefghijklmnopqrstu")
        (msgUnexpected "http://site.example" "abcdefghijklmnopqrstu"
          strNotCallableMsg))
      "401" = false := by
  constructor
  · rw [spider401_run_eq]
    simp [recordError, beginProcess, initSt]
  · decide

/-- C2 (amended): when a dequeued page's fetch returns an error, the
error string is recorded; a critical error ends the site's traversal at
once (the loop result is the state after recording, so no remaining
frontier entry is fetched), while a non-critical error only skips this
page (the loop continues on the remaining frontier).  In the concrete
401 scenario — the spider wired to the real fetch client over a network
that answers `401 Unauthorized` — the run still records exactly one
error string and fetches only the base page, but that string does not
contain `"401"`: the fetch client's 401 branch dies in the
`await response.text()` `TypeError`, so the recorded string reports
status 0 and the catch-all message. -/
theorem c2_spider_error_abort_or_skip (env : SpiderEnv) (key : String)
    (qt : List String) (mD mP : Nat) (s : SpiderSt) (url : String) (d : Nat)
    (rest : List (String × Nat)) (msg : String)
    (hq : s.queue = (url, d) :: rest) (hc : s.count < mP)
    (hv : url ∉ s.visited) (hd : d ≤ mD)
    (he : (env.fetchOf key url).error_message = some msg) :
    ((env.fetchOf key url).is_critical_error = true →
      spiderLoop env key qt mD mP s =
        recordError (beginProcess s url d rest)
          (fetchErrorString url (env.fetchOf key url) msg) ∧
      (spiderLoop env key qt mD mP s).errors =
        s.errors ++ [fetchErrorString url (env.fetchOf key url) msg] ∧
      (spiderLoop env key qt mD mP s).fetches = s.fetches ++ [(url, d)]) ∧
    ((env.fetchOf key url).is_critical_error = false →
      spiderLoop env key qt mD mP s =
        spiderLoop env key qt mD mP
          (recordError (beginProcess s url d rest)
            (fetchErrorString url (env.fetchOf key url) msg)) ∧
      (recordError (beginProcess s url d rest)
        (fetchErrorString url (env.fetchOf key url) msg)).queue = rest ∧
      (recordError (beginProcess s url d rest)
        (fetchErrorString url (env.fetchOf key url) msg)).errors =
        s.errors ++ [fetchErrorString url (env.fetchOf key url) msg]) ∧
    ((process_single_site_for_spider_crawl spiderEnv401 "http://site.example"
        "abcdefghijklmnopqrstu" "" 1 3).errors.length = 1 ∧
     (∀ e ∈ (process_single_site_for_spider_crawl spiderEnv401 "http://site.example"
        "abcdefghijklmnopqrstu" "" 1 3).errors, pyContains e "401" = false) ∧
     (process_single_site_for_spider_crawl spiderEnv401 "http://site.example"
        "abcdefghijklmnopqrstu" "" 1 3).fetches = [("http://site.example", 0)]) := by
  have hd' : ¬ mD < d := Nat.not_lt.mpr hd
  have heq := spiderLoop_fetch_error env key qt mD mP s url d rest msg hq hc hv hd' he
  refine ⟨?_, ?_, ?_⟩
  · intro hcrit
    rw [heq, if_pos hcrit]
    exact ⟨rfl, by simp [recordError, beginProcess],
      by simp [recordError, beginProcess]⟩
  · intro hcrit
    rw [heq, if_neg (by simp [hcrit])]
    exact ⟨rfl, by simp [recordError, beginProcess],
      by simp [recordError, beginProcess]⟩
  · refine ⟨?_, ?_, ?_⟩
    · rw [spider401_run_eq]
      simp [recordError, beginProcess, initSt]
    · intro e hemem
      rw [spider401_run_eq] at hemem
      simp only [recordError, beginProcess, initSt, List.nil_append,
        List.mem_singleton] at hemem
      rw [hemem]
      decide
    · rw [spider401_run_eq]
      simp [recordError, beginProcess, initSt]

/-- Witness for C2 at a critical fetch error on the base page. -/
theorem c2_witness :
    ((initSt "http://a").queue = ("http://a", 0) :: [] ∧
     (initSt "http://a").count < 3 ∧
     "http://a" ∉ (initSt "http://a").visited ∧
     (0 : Nat) ≤ 1 ∧
     (envErr.fetchOf "k" "http://a").error_message = some "boom" ∧
     (envErr.fetchOf "k" "http://a").is_critical_error = true) ∧
    (spiderLoop envErr "k" [] 1 3 (initSt "http://a") =
      recordError (beginProcess (initSt "http://a") "http://a" 0 [])
        (fetchErrorString "http://a" (envErr.fetchOf "k" "http://a") "boom") ∧
     (spiderLoop envErr "k" [] 1 3 (initSt "http://a")).errors =
       (initSt "http://a").errors ++
         [fetchErrorString "http://a" (envErr.fetchOf "k" "http://a") "boom"] ∧
     (spiderLoop envErr "k" [] 1 3 (initSt "http://a")).fetches =
       (initSt "http://a").fetches ++ [("http://a", 0)]) :=
  ⟨⟨rfl, by decide, by simp [initSt], by decide, rfl, rfl⟩,
    (c2_spider_error_abort_or_skip envErr "k" [] 1 3 (initSt "http://a")
      "http://a" 0 [] "boom" rfl (by decide) (by simp [initSt]) (by decide) rfl).1 rfl⟩

/-! ## Claim C6: link extraction below the depth limit, with the
per-page budget, frontier-dedup checks and the soft cap -/

/-- C6 (against the evident intent of source line 179, whose named
constant `config.DEFAULT_MAX_LINKS_PER_PAGE_SPIDER` is not actually
imported by `scraper_service.py`): after a successful fetch with a
non-empty body, when `d < max_depth` the spider runs the Link Relevance
Filter with the per-page budget `DEFAULT_MAX_LINKS_PER_PAGE_SPIDER`
(recorded in the trace) and runs the enqueue loop over the returned
links at depth `d+1`; when `d = max_depth` no extraction call and no
enqueue happens.  Each enqueue step adds a link only under the soft cap
`2*(|visited|+|queue|) < 3*max_pages` and only when the link is neither
visited nor already queued, at depth `d+1`; otherwise it leaves the
state unchanged. -/
theorem c6_spider_link_extraction (env : SpiderEnv) (key : String)
    (qt : List String) (mD mP : Nat) (s : SpiderSt) (url raw : String) (d : Nat)
    (rest : List (String × Nat))
    (hq : s.queue = (url, d) :: rest) (hc : s.count < mP)
    (hv : url ∉ s.visited) (hd : d ≤ mD)
    (he : (env.fetchOf key url).error_message = none)
    (hr : (env.fetchOf key url).raw_response_text = some raw)
    (hraw : raw ≠ "") :
    (d < mD →
      spiderLoop env key qt mD mP s =
        spiderLoop env key qt mD mP
          (enqueueLinks mP (d + 1)
            (recordExtract (contentStep env (beginProcess s url d rest) raw url)
              url DEFAULT_MAX_LINKS_PER_PAGE_SPIDER)
            (extract_relevant_internal_links env.html raw url qt
              DEFAULT_MAX_LINKS_PER_PAGE_SPIDER)) ∧
      (recordExtract (contentStep env (beginProcess s url d rest) raw url)
          url DEFAULT_MAX_LINKS_PER_PAGE_SPIDER).extractCalls =
        s.extractCalls ++ [(url, DEFAULT_MAX_LINKS_PER_PAGE_SPIDER)]) ∧
    (d = mD →
      spiderLoop env key qt mD mP s =
        spiderLoop env key qt mD mP
          (contentStep env (beginProcess s url d rest) raw url) ∧
      (contentStep env (beginProcess s url d rest) raw url).extractCalls =
        s.extractCalls ∧
      (contentStep env (beginProcess s url d rest) raw url).queue = rest ∧
      (contentStep env (beginProcess s url d rest) raw url).enqueues = s.enqueues) ∧
    (∀ (st : SpiderSt) (link : String) (d1 : Nat),
      (¬ (2 * (st.visited.length + st.queue.length) < 3 * mP) →
        enqueueLink mP d1 st link = st) ∧
      ((link ∈ st.visited ∨ ¬ (∀ q ∈ st.queue, q.1 ≠ link)) →
        enqueueLink mP d1 st link = st) ∧
      (2 * (st.visited.length + st.queue.length) < 3 * mP →
        link ∉ st.visited → (∀ q ∈ st.queue, q.1 ≠ link) →
        enqueueLink mP d1 st link =
          { st with queue := st.queue ++ [(link, d1)]
                    enqueues := st.enqueues ++ [(link, d1)] })) := by
  have hd' : ¬ mD < d := Nat.not_lt.mpr hd
  have heq := spiderLoop_success env key qt mD mP s url raw d rest hq hc hv hd' he hr hraw
  refine ⟨?_, ?_, ?_⟩
  · intro hdlt
    rw [heq, if_pos hdlt]
    refine ⟨rfl, ?_⟩
    simp only [recordExtract, contentStep]
    split_ifs <;> simp [recordPart, beginProcess]
  · intro hdeq
    subst hdeq
    rw [heq, if_neg (Nat.lt_irrefl d)]
    refine ⟨rfl, ?_, ?_, ?_⟩ <;>
      (simp only [contentStep]; split_ifs <;> simp [recordPart, beginProcess])
  · intro st link d1
    refine ⟨?_, ?_, ?_⟩
    · intro hgate
      rw [enqueueLink, if_neg hgate]
    · intro hdup
      rw [enqueueLink]
      split_ifs with h1 h2
      · exfalso
        obtain ⟨hnv, hnq⟩ := h2
        rcases hdup with hvis | hqdup
        · exact hnv hvis
        · exact hqdup hnq
      · rfl
      · rfl
    · intro hgate hnv hnq
      rw [enqueueLink, if_pos hgate, if_pos ⟨hnv, hnq⟩]

/-- Witness for C6 at depth 0 with `max_depth = 1` and a successful
fetch. -/
theorem c6_witness :
    ((initSt "http://a").queue = ("http://a", 0) :: [] ∧
     (initSt "http://a").count < 3 ∧
     "http://a" ∉ (initSt "http://a").visited ∧
     (envOk.fetchOf "k" "http://a").error_message = none ∧
     (envOk.fetchOf "k" "http://a").raw_response_text =
       some "<html><body>hi</body></html>" ∧
     "<html><body>hi</body></html>" ≠ "" ∧ (0 : Nat) < 1) ∧
    (spiderLoop envOk "k" [] 1 3 (initSt "http://a") =
      spiderLoop envOk "k" [] 1 3
        (enqueueLinks 3 (0 + 1)
          (recordExtract
            (contentStep envOk (beginProcess (initSt "http://a") "http://a" 0 [])
              "<html><body>hi</body></html>" "http://a")
            "http://a" DEFAULT_MAX_LINKS_PER_PAGE_SPIDER)
          (extract_relevant_internal_links envOk.html "<html><body>hi</body></html>"
            "http://a" [] DEFAULT_MAX_LINKS_PER_PAGE_SPIDER)) ∧
     (recordExtract
        (contentStep envOk (beginProcess (initSt "http://a") "http://a" 0 [])
          "<html><body>hi</body></html>" "http://a")
        "http://a" DEFAULT_MAX_LINKS_PER_PAGE_SPIDER).extractCalls =
       (initSt "http://a").extractCalls ++
         [("http://a", DEFAULT_MAX_LINKS_PER_PAGE_SPIDER)]) :=
  ⟨⟨rfl, by decide, by simp [initSt], rfl, rfl, by decide, by decide⟩,
    (c6_spider_link_extraction envOk "k" [] 1 3 (initSt "http://a") "http://a"
      "<html><body>hi</body></html>" 0 [] rfl (by decide) (by simp [initSt])
      (by decide) rfl rfl (by decide)).1 (by decide)⟩

/-! ## Claim C9: the Link Relevance Filter is a pure function with set
semantics -/

/-- The extraction loop keeps its accumulated link set duplicate-free. -/
theorem extractLinksLoop_nodup (env : HtmlEnv) (base bloc : String)
    (qt : List String) (n : Nat) :
    ∀ (anchors : List Anchor) (links : List String), links.Nodup →
      (extractLinksLoop env base bloc qt n anchors links).Nodup := by
  intro anchors
  induction anchors with
  | nil => intro links h; exact h
  | cons a rest ih =>
    intro links h
    simp only [extractLinksLoop]
    split_ifs <;>
      first
        | exact h
        | exact ih links h
        | exact ih _ (nodup_append_singleton h (by assumption))

/-- C9: the Link Relevance Filter is a pure function of its inputs —
identical arguments (including the abstract parser collaborators) give
identical output — and its output has set semantics: the returned link
list is duplicate-free. -/
theorem c9_extract_links_pure (env : HtmlEnv) (html base : String)
    (qterms : List String) (n : Nat) :
    extract_relevant_internal_links env html base qterms n =
      extract_relevant_internal_links env html base qterms n ∧
    (extract_relevant_internal_links env html base qterms n).toFinset =
      (extract_relevant_internal_links env html base qterms n).toFinset ∧
    (extract_relevant_internal_links env html base qterms n).Nodup := by
  refine ⟨rfl, rfl, ?_⟩
  rw [extract_relevant_internal_links]
  split_ifs with h0
  · exact List.nodup_nil
  · exact extractLinksLoop_nodup env base _ qterms n _ [] List.nodup_nil

end Scraper
